import Mathlib

set_option maxRecDepth 10000

/-!
# Verification of the LINE/Dialogflow webhook relay (src/server.js)

Shallow embedding of the message-intake and response-resolution pipeline:

* `getLoadingDuration` — the length-banded indicator duration policy
  (`getLoadingDuration`, server.js lines 224-238);
* `getFallbackResponse` — the keyword-based fallback responder
  (`getFallbackResponse`, server.js lines 339-365); the process-global
  `dialogflowReady` flag that two of its branches interpolate is passed
  explicitly;
* `showRealLoadingAnimation` — the native loading-indicator call with its
  sleep fallback (server.js lines 241-278);
* `processWithDialogflow` — the NLU delegation / fallback decision
  (server.js lines 281-301);
* `handleEvent` — the per-event orchestrator (server.js lines 161-221).

Effectful steps (indicator start, sleeps, the Dialogflow query, reply sends)
are recorded as an `Act` trace; the behaviour of the external world
(readiness flag, Dialogflow outcome, transport failures) is an `Env` oracle
threaded through the functions.  JavaScript strings are modelled as Lean
`String`s; `toLowerStr`, `trimStr` and `strIncludes` model
`toLowerCase()`, `trim()` and `includes()`.
-/

/-- `startsWithL pat cs` : `pat` is an initial segment of `cs`
(character-list version of a startsWith check). -/
def startsWithL : List Char → List Char → Bool
  | [], _ => true
  | _ :: _, [] => false
  | p :: ps, c :: cs => p == c && startsWithL ps cs

/-- `occursIn pat cs` : `pat` occurs contiguously somewhere in `cs`. -/
def occursIn (pat : List Char) : List Char → Bool
  | [] => startsWithL pat []
  | c :: cs => startsWithL pat (c :: cs) || occursIn pat cs

/-- Model of JavaScript `s.includes(pat)`. -/
def strIncludes (s pat : String) : Bool :=
  occursIn pat.data s.data

/-- Model of JavaScript `toLowerCase()` (character-wise case fold; the
keywords the responder matches are ASCII or caseless Thai). -/
def toLowerStr (s : String) : String :=
  String.mk (s.data.map Char.toLower)

/-- Model of JavaScript `trim()`: drop leading and trailing whitespace. -/
def trimStr (s : String) : String :=
  String.mk (((s.data.dropWhile Char.isWhitespace).reverse.dropWhile
    Char.isWhitespace).reverse)

/-- `getLoadingDuration` (server.js 224-238): length-banded duration in
seconds for the loading indicator. -/
def getLoadingDuration (message : String) : Nat :=
  if message.length ≤ 10 then 3
  else if message.length ≤ 30 then 4
  else if message.length ≤ 100 then 5
  else 6

/-- Reply of the loading-info keyword group (server.js 345-347). -/
def loadingReply : String :=
  "🎬 ระบบใช้ Loading Animation จริงจาก LINE แล้ว!\n\n✅ ไม่มีข้อความสปาม\n✅ Animation แบบ Native\n✅ หายไปอัตโนมัติ\n✅ UX ดีขึ้นมาก\n\nลองส่งข้อความยาวๆ ดูครับ จะโหลดนานขึ้น! 🚀"

/-- Reply of the greeting keyword group (server.js 350-352). -/
def greetingReply : String :=
  "🤖 สวัสดีครับ! ระบบใช้ Loading Animation จริงจาก LINE API แล้ว\n\nคุณเห็น loading animation ที่เป็นแบบ native ของ LINE หรือไม่? ไม่มีข้อความสปามแล้วครับ! ✨"

/-- Reply of the test keyword group (server.js 354-356); interpolates the
process-global readiness flag. -/
def testReply (dialogflowReady : Bool) : String :=
  "🎬 ระบบ Real Loading Animation ทำงานแล้ว!\n\n✅ LINE Native Loading: ใช้งานได้\n✅ Auto Duration: 3-6 วินาที\n✅ No Spam Messages: สะอาด\n✅ Dialogflow: "
    ++ (if dialogflowReady then "พร้อม" else "Fallback")
    ++ "\n\nทุกอย่างเพอร์เฟค! 🚀"

/-- Reply of the connectivity keyword group (server.js 358-360); interpolates
the process-global readiness flag. -/
def connectReply (dialogflowReady : Bool) : String :=
  "🔗 ระบบเชื่อมต่อสำเร็จ!\n\n• Dialogflow: "
    ++ (if dialogflowReady then "✅ พร้อม" else "⚠️ ไม่พร้อม")
    ++ "\n• LINE Loading API: ✅ ทำงาน\n• Real Animation: ✅ Native\n\nไม่มีข้อความสปามอีกแล้วครับ! 🎉"

/-- Default reply of the unmatched group (server.js 362-364): a fixed
template interpolating the original message and its computed duration. -/
def defaultReply (message : String) : String :=
  "📨 ได้รับข้อความ \"" ++ message
    ++ "\" แล้วครับ!\n\n🎬 คุณเห็น Loading Animation จริงๆ จาก LINE หรือไม่?\n⏰ Duration: "
    ++ toString (getLoadingDuration message)
    ++ " วินาที\n\nลองส่งข้อความยาวๆ ดู จะโหลดนานขึ้นครับ! ✨"

/-- `getFallbackResponse` (server.js 339-365): case-insensitive ordered
keyword scan over the lower-cased message; first matching group wins. -/
def getFallbackResponse (dialogflowReady : Bool) (message : String) : String :=
  if strIncludes (toLowerStr message) "loading" || strIncludes (toLowerStr message) "โหลด" then
    loadingReply
  else if strIncludes (toLowerStr message) "สวัสดี" || strIncludes (toLowerStr message) "หวัดดี"
      || strIncludes (toLowerStr message) "hello" then
    greetingReply
  else if strIncludes (toLowerStr message) "ทดสอบ" || strIncludes (toLowerStr message) "test" then
    testReply dialogflowReady
  else if strIncludes (toLowerStr message) "เชื่อมต่อ" then
    connectReply dialogflowReady
  else
    defaultReply message

/-- The generic apology text of the error fallback (server.js 213). -/
def apologyText : String :=
  "ขออภัยครับ เกิดข้อผิดพลาดในระบบ กรุณาลองใหม่อีกครั้งครับ 🙏"

/-- Observable effect of one pipeline step. -/
inductive Act where
  /-- POST to the LINE loading-start endpoint (server.js 245-253). -/
  | startIndicator (userId : String) (seconds : Nat)
  /-- `sleep ms` (server.js 368-370). -/
  | sleep (ms : Nat)
  /-- `detectIntent` round trip of `queryDialogflow` (server.js 304-336). -/
  | dfQuery (text userId : String)
  /-- `client.replyMessage` attempt (server.js 191-194 and 211-214). -/
  | reply (replyToken text : String)
deriving DecidableEq

/-- `event.source` of a LINE webhook event. -/
structure Source where
  userId : String
deriving DecidableEq

/-- `event.message` of a LINE webhook event. -/
structure Message where
  type : String
  text : String
deriving DecidableEq

/-- A LINE webhook inbound event, with the fields `handleEvent` reads. -/
structure Event where
  type : String
  replyToken : String
  source : Source
  message : Message
deriving DecidableEq

/-- The external world as `handleEvent` can observe it: the process-global
readiness flag, the Dialogflow outcome (`Except` failure, or fulfillment
text where `none` models an absent field), and whether each fallible
transport call throws. -/
structure Env where
  dialogflowReady : Bool
  dfOutcome : Except Unit (Option String)
  indicatorFails : Bool
  replyFails : Bool
  apologyFails : Bool

/-- The value `handleEvent` resolves to (server.js 167, 197-204, 219). -/
inductive Outcome where
  | success (userId input output : String) (loadingSeconds : Nat)
  | error
deriving DecidableEq

/-- `showRealLoadingAnimation` (server.js 241-278): one indicator-start call;
on failure the error is swallowed and a plain sleep of the same duration runs
instead.  Returns the `success` flag of the result object and the trace. -/
def showRealLoadingAnimation (env : Env) (userId : String) (loadingSeconds : Nat) :
    Bool × List Act :=
  if env.indicatorFails then
    (false, [Act.startIndicator userId loadingSeconds,
             Act.sleep (loadingSeconds * 1000)])
  else
    (true, [Act.startIndicator userId loadingSeconds])

/-- `processWithDialogflow` (server.js 281-301): if the gateway is not ready,
resolve via the fallback with no backend call; otherwise query, and use the
fulfillment text only when present and non-empty after trimming. -/
def processWithDialogflow (env : Env) (message userId : String) :
    String × List Act :=
  if env.dialogflowReady = false then
    (getFallbackResponse env.dialogflowReady message, [])
  else
    match env.dfOutcome with
    | Except.error _ =>
        (getFallbackResponse env.dialogflowReady message, [Act.dfQuery message userId])
    | Except.ok none =>
        (getFallbackResponse env.dialogflowReady message, [Act.dfQuery message userId])
    | Except.ok (some s) =>
        if trimStr s = "" then
          (getFallbackResponse env.dialogflowReady message, [Act.dfQuery message userId])
        else
          (s, [Act.dfQuery message userId])

/-- `handleEvent` (server.js 161-221): filter for text messages, run the
indicator, resolve the response, wait out the remaining indicator time, send
exactly one reply; a throwing reply send triggers one apology attempt. -/
def handleEvent (env : Env) (event : Event) : Option Outcome × List Act :=
  if event.type ≠ "message" ∨ event.message.type ≠ "text" then
    (none, [])
  else
    let userId := event.source.userId
    let userMessage := trimStr event.message.text
    let loadingSeconds := getLoadingDuration userMessage
    let ind := showRealLoadingAnimation env userId loadingSeconds
    let proc := processWithDialogflow env userMessage userId
    let botResponse := proc.1
    let waitAct := Act.sleep (max 0 (loadingSeconds * 1000 - 1000))
    if env.replyFails then
      (some Outcome.error,
        ind.2 ++ proc.2 ++ [waitAct,
          Act.reply event.replyToken botResponse,
          Act.reply event.replyToken apologyText])
    else
      (some (Outcome.success userId userMessage botResponse loadingSeconds),
        ind.2 ++ proc.2 ++ [waitAct,
          Act.reply event.replyToken botResponse])

/-! ## Trace observers -/

/-- Whether an action is a reply-send attempt. -/
def isReplyAct : Act → Bool
  | Act.reply _ _ => true
  | _ => false

/-- The reply-send attempts of a trace, in order. -/
def replyActs (tr : List Act) : List Act :=
  tr.filter (fun a => isReplyAct a)

/-- The texts of the reply-send attempts of a trace, in order. -/
def replyTexts (tr : List Act) : List String :=
  tr.filterMap (fun a =>
    match a with
    | Act.reply _ t => some t
    | _ => none)

/-- Whether an action is a Dialogflow backend call. -/
def isDfQuery : Act → Bool
  | Act.dfQuery _ _ => true
  | _ => false

/-- `qualifies event` : the event passes the text-message filter. -/
def qualifies (event : Event) : Prop :=
  event.type = "message" ∧ event.message.type = "text"

/-- No keyword of any fallback group occurs in the lower-cased message. -/
def noKeywordMatch (s : String) : Bool :=
  !(strIncludes (toLowerStr s) "loading" || strIncludes (toLowerStr s) "โหลด"
    || strIncludes (toLowerStr s) "สวัสดี" || strIncludes (toLowerStr s) "หวัดดี"
    || strIncludes (toLowerStr s) "hello"
    || strIncludes (toLowerStr s) "ทดสอบ" || strIncludes (toLowerStr s) "test"
    || strIncludes (toLowerStr s) "เชื่อมต่อ")

/-! ## Helper lemmas -/

/-- A string append with a non-empty left part is non-empty. -/
theorem append_ne_empty_left (a b : String) (h : a ≠ "") : a ++ b ≠ "" := by
  cases a with
  | mk da =>
    cases b with
    | mk db =>
      intro hab
      apply h
      have hd : da ++ db = ([] : List Char) := by
        have := congrArg String.data hab
        simpa using this
      rcases List.append_eq_nil.mp hd with ⟨h1, _⟩
      simpa using congrArg String.mk h1

/-- Every branch of the fallback responder returns a non-empty string. -/
theorem fallback_ne_empty (dialogflowReady : Bool) (message : String) :
    getFallbackResponse dialogflowReady message ≠ "" := by
  unfold getFallbackResponse
  split
  · decide
  · split
    · decide
    · split
      · cases dialogflowReady <;> decide
      · split
        · cases dialogflowReady <;> decide
        · unfold defaultReply
          apply append_ne_empty_left
          apply append_ne_empty_left
          apply append_ne_empty_left
          apply append_ne_empty_left
          decide

/-! ## Claims -/

/-- C4: the computed duration is 3 for length ≤ 10, 4 for 10 < length ≤ 30,
5 for 30 < length ≤ 100, 6 otherwise, and is monotonically non-decreasing in
text length. -/
theorem claim4_duration_bands (s t : String) :
    (s.length ≤ 10 → getLoadingDuration s = 3)
    ∧ (10 < s.length → s.length ≤ 30 → getLoadingDuration s = 4)
    ∧ (30 < s.length → s.length ≤ 100 → getLoadingDuration s = 5)
    ∧ (100 < s.length → getLoadingDuration s = 6)
    ∧ (s.length ≤ t.length → getLoadingDuration s ≤ getLoadingDuration t) := by
  unfold getLoadingDuration
  refine ⟨?_, ?_, ?_, ?_, ?_⟩ <;> intros <;> split_ifs <;> omega

/-- Witness for C4 at concrete inputs. -/
theorem claim4_duration_bands_witness :
    getLoadingDuration "hello" = 3
    ∧ getLoadingDuration "aaaaaaaaaaaaaaaaaaaa" = 4
    ∧ getLoadingDuration "hello" ≤ getLoadingDuration "aaaaaaaaaaaaaaaaaaaa" := by
  refine ⟨(claim4_duration_bands "hello" "hello").1 (by decide),
    (claim4_duration_bands "aaaaaaaaaaaaaaaaaaaa" "hello").2.1 (by decide) (by decide),
    (claim4_duration_bands "hello" "aaaaaaaaaaaaaaaaaaaa").2.2.2.2 (by decide)⟩

/-- C5: for every input (the empty string included) the fallback responder
returns exactly one non-empty string; it is a total pure Lean function, so
termination without error and absence of I/O hold by construction. -/
theorem claim5_fallback_total_nonempty (dialogflowReady : Bool) (message : String) :
    getFallbackResponse dialogflowReady message ≠ "" :=
  fallback_ne_empty dialogflowReady message

/-- `replyActs` distributes over trace concatenation. -/
theorem replyActs_append (a b : List Act) :
    replyActs (a ++ b) = replyActs a ++ replyActs b := by
  simp [replyActs, List.filter_append]

/-- The indicator step never attempts a reply. -/
theorem replyActs_showReal (env : Env) (u : String) (d : Nat) :
    replyActs (showRealLoadingAnimation env u d).2 = [] := by
  unfold showRealLoadingAnimation
  split <;> simp [replyActs, isReplyAct]

/-- The resolution step never attempts a reply. -/
theorem replyActs_proc (env : Env) (m u : String) :
    replyActs (processWithDialogflow env m u).2 = [] := by
  unfold processWithDialogflow
  split
  · simp [replyActs]
  · split
    · simp [replyActs, isReplyAct]
    · simp [replyActs, isReplyAct]
    · split <;> simp [replyActs, isReplyAct]

/-- `replyTexts` distributes over trace concatenation. -/
theorem replyTexts_append (a b : List Act) :
    replyTexts (a ++ b) = replyTexts a ++ replyTexts b := by
  simp [replyTexts, List.filterMap_append]

/-- The indicator step contributes no reply text. -/
theorem replyTexts_showReal (env : Env) (u : String) (d : Nat) :
    replyTexts (showRealLoadingAnimation env u d).2 = [] := by
  unfold showRealLoadingAnimation
  split <;> simp [replyTexts]

/-- The resolution step contributes no reply text. -/
theorem replyTexts_proc (env : Env) (m u : String) :
    replyTexts (processWithDialogflow env m u).2 = [] := by
  unfold processWithDialogflow
  split
  · simp [replyTexts]
  · split
    · simp [replyTexts]
    · simp [replyTexts]
    · split <;> simp [replyTexts]

/-- A sleep contributes no reply attempt. -/
theorem replyActs_cons_sleep (ms : Nat) (tr : List Act) :
    replyActs (Act.sleep ms :: tr) = replyActs tr := by
  simp [replyActs, isReplyAct]

/-- A reply attempt is kept by `replyActs`. -/
theorem replyActs_cons_reply (tok txt : String) (tr : List Act) :
    replyActs (Act.reply tok txt :: tr) = Act.reply tok txt :: replyActs tr := by
  simp [replyActs, isReplyAct]

/-- `replyActs` of the empty trace. -/
theorem replyActs_nil : replyActs [] = [] := rfl

/-- A sleep contributes no reply text. -/
theorem replyTexts_cons_sleep (ms : Nat) (tr : List Act) :
    replyTexts (Act.sleep ms :: tr) = replyTexts tr := by
  simp [replyTexts]

/-- A reply attempt contributes its text to `replyTexts`. -/
theorem replyTexts_cons_reply (tok txt : String) (tr : List Act) :
    replyTexts (Act.reply tok txt :: tr) = txt :: replyTexts tr := by
  simp [replyTexts]

/-- `replyTexts` of the empty trace. -/
theorem replyTexts_nil : replyTexts [] = [] := rfl

/-- Closed form of `handleEvent` on a qualifying event: the outcome and the
full trace, for any environment. -/
theorem handleEvent_qualifying (env : Env) (e : Event)
    (h1 : e.type = "message") (h2 : e.message.type = "text") :
    handleEvent env e =
      ((if env.replyFails then some Outcome.error
        else some (Outcome.success e.source.userId (trimStr e.message.text)
          (processWithDialogflow env (trimStr e.message.text) e.source.userId).1
          (getLoadingDuration (trimStr e.message.text)))),
       (showRealLoadingAnimation env e.source.userId
           (getLoadingDuration (trimStr e.message.text))).2
         ++ (processWithDialogflow env (trimStr e.message.text) e.source.userId).2
         ++ (if env.replyFails then
              [Act.sleep (max 0 (getLoadingDuration (trimStr e.message.text) * 1000 - 1000)),
               Act.reply e.replyToken
                 (processWithDialogflow env (trimStr e.message.text) e.source.userId).1,
               Act.reply e.replyToken apologyText]
             else
              [Act.sleep (max 0 (getLoadingDuration (trimStr e.message.text) * 1000 - 1000)),
               Act.reply e.replyToken
                 (processWithDialogflow env (trimStr e.message.text) e.source.userId).1])) := by
  unfold handleEvent
  rw [if_neg (by simp [h1, h2])]
  cases hrf : env.replyFails <;> simp [hrf]

/-- C1: on a qualifying event exactly one reply attempt is made, bound to the
event's reply token, under every Dialogflow outcome (success and NLU failure
alike); a second attempt — the fixed apology, on the same token — happens
exactly when the first reply send throws, and a third attempt never occurs. -/
theorem claim1_single_reply (env : Env) (e : Event)
    (h1 : e.type = "message") (h2 : e.message.type = "text") :
    replyActs (handleEvent env e).2 =
      (if env.replyFails then
        [Act.reply e.replyToken
           (processWithDialogflow env (trimStr e.message.text) e.source.userId).1,
         Act.reply e.replyToken apologyText]
       else
        [Act.reply e.replyToken
           (processWithDialogflow env (trimStr e.message.text) e.source.userId).1]) := by
  rw [handleEvent_qualifying env e h1 h2]
  cases hrf : env.replyFails <;>
    simp [hrf, replyActs_append, replyActs_showReal, replyActs_proc,
      replyActs_cons_sleep, replyActs_cons_reply, replyActs_nil]

/-- Witness for C1: one reply attempt on a concrete successful event. -/
theorem claim1_single_reply_witness :
    replyActs (handleEvent (Env.mk true (Except.ok (some "ok")) false false false)
      (Event.mk "message" "tok" (Source.mk "u") (Message.mk "text" "hi"))).2 =
      [Act.reply "tok"
        (processWithDialogflow (Env.mk true (Except.ok (some "ok")) false false false)
          (trimStr "hi") "u").1] := by
  have h := claim1_single_reply (Env.mk true (Except.ok (some "ok")) false false false)
    (Event.mk "message" "tok" (Source.mk "u") (Message.mk "text" "hi")) rfl rfl
  simpa using h

/-- C2: the resolved text is the fulfillment text exactly when the gateway is
ready and the backend returns text that is non-empty after trimming; in every
other case (gateway not ready — with no backend call at all —, backend
failure, absent or whitespace-only text) it is the fallback responder applied
to the trimmed message, and it is never empty; the text of the (first) reply
sent is exactly this resolved text. -/
theorem claim2_resolution (env : Env) (e : Event) (s : String)
    (h1 : e.type = "message") (h2 : e.message.type = "text") :
    (replyTexts (handleEvent env e).2).head? =
      some (processWithDialogflow env (trimStr e.message.text) e.source.userId).1
    ∧ (env.dialogflowReady = true → env.dfOutcome = Except.ok (some s) →
      trimStr s ≠ "" →
      processWithDialogflow env (trimStr e.message.text) e.source.userId
        = (s, [Act.dfQuery (trimStr e.message.text) e.source.userId]))
    ∧ (env.dialogflowReady = false →
      processWithDialogflow env (trimStr e.message.text) e.source.userId
        = (getFallbackResponse false (trimStr e.message.text), []))
    ∧ (env.dfOutcome = Except.error () →
      (processWithDialogflow env (trimStr e.message.text) e.source.userId).1
        = getFallbackResponse env.dialogflowReady (trimStr e.message.text))
    ∧ (env.dfOutcome = Except.ok none →
      (processWithDialogflow env (trimStr e.message.text) e.source.userId).1
        = getFallbackResponse env.dialogflowReady (trimStr e.message.text))
    ∧ (env.dfOutcome = Except.ok (some s) → trimStr s = "" →
      (processWithDialogflow env (trimStr e.message.text) e.source.userId).1
        = getFallbackResponse env.dialogflowReady (trimStr e.message.text))
    ∧ (processWithDialogflow env (trimStr e.message.text) e.source.userId).1 ≠ "" := by
  constructor
  · rw [handleEvent_qualifying env e h1 h2]
    cases hrf : env.replyFails <;>
      simp [hrf, replyTexts_append, replyTexts_showReal, replyTexts_proc,
        replyTexts_cons_sleep, replyTexts_cons_reply, replyTexts_nil]
  obtain ⟨ready, dfo, indf, rf, af⟩ := env
  refine ⟨?_, ?_, ?_, ?_, ?_, ?_⟩
  · rintro rfl rfl htrim
    simp [processWithDialogflow, htrim]
  · rintro rfl
    simp [processWithDialogflow]
  · rintro rfl
    cases ready <;> simp [processWithDialogflow]
  · rintro rfl
    cases ready <;> simp [processWithDialogflow]
  · rintro rfl htrim
    cases ready <;> simp [processWithDialogflow, htrim]
  · cases ready
    · simp [processWithDialogflow, fallback_ne_empty]
    · rcases dfo with u0 | r0
      · simp [processWithDialogflow, fallback_ne_empty]
      · rcases r0 with _ | s0
        · simp [processWithDialogflow, fallback_ne_empty]
        · by_cases htrim : trimStr s0 = ""
          · simp [processWithDialogflow, htrim, fallback_ne_empty]
          · simp [processWithDialogflow, htrim]
            intro h0
            apply htrim
            rw [h0]
            decide

/-- Witness for C2 on a concrete ready environment with fulfillment "ok". -/
theorem claim2_resolution_witness :
    processWithDialogflow (Env.mk true (Except.ok (some "ok")) false false false)
      (trimStr "hi") "u" = ("ok", [Act.dfQuery (trimStr "hi") "u"]) :=
  (claim2_resolution (Env.mk true (Except.ok (some "ok")) false false false)
    (Event.mk "message" "tok" (Source.mk "u") (Message.mk "text" "hi"))
    "ok" rfl rfl).2.1 rfl rfl (by decide)

/-- C3: a non-qualifying event (wrong kind or wrong content type) yields the
null outcome and the empty trace: no reply, no indicator call, no Dialogflow
call, and no error. -/
theorem claim3_skip_non_text (env : Env) (e : Event)
    (h : e.type ≠ "message" ∨ e.message.type ≠ "text") :
    handleEvent env e = (none, []) := by
  unfold handleEvent
  rw [if_pos h]

/-- Witness for C3 at a concrete follow event. -/
theorem claim3_skip_non_text_witness :
    handleEvent (Env.mk true (Except.ok none) false false false)
      (Event.mk "follow" "tok" (Source.mk "u") (Message.mk "none" "")) = (none, []) :=
  claim3_skip_non_text (Env.mk true (Except.ok none) false false false)
    (Event.mk "follow" "tok" (Source.mk "u") (Message.mk "none" ""))
    (Or.inl (by decide))

/-- C6 counterexample: an input containing the greeting keyword "สวัสดี"
whose reply is the loading-group reply, not the greeting-group reply,
because the loading group is checked first and also matches. -/
theorem claim6_first_match_counterexample :
    strIncludes (toLowerStr "loadingสวัสดี") "สวัสดี" = true
    ∧ getFallbackResponse true "loadingสวัสดี" = loadingReply
    ∧ getFallbackResponse true "loadingสวัสดี" ≠ greetingReply := by
  refine ⟨by decide, by decide, by decide⟩

/-- C6 (amended): matching is case-insensitive substring matching over the
fixed ordered group list in which the first matching group wins: "HELLO" and
"hello" both produce the greeting reply, and any input containing a greeting
keyword that the earlier loading group does not claim first produces the
greeting-group reply. -/
theorem claim6_first_match (ready : Bool) (s : String)
    (hl1 : strIncludes (toLowerStr s) "loading" = false)
    (hl2 : strIncludes (toLowerStr s) "โหลด" = false)
    (hg : strIncludes (toLowerStr s) "สวัสดี" = true
      ∨ strIncludes (toLowerStr s) "หวัดดี" = true
      ∨ strIncludes (toLowerStr s) "hello" = true) :
    getFallbackResponse ready s = greetingReply
    ∧ getFallbackResponse ready "HELLO" = greetingReply
    ∧ getFallbackResponse ready "hello" = greetingReply := by
  refine ⟨?_, ?_, ?_⟩
  · unfold getFallbackResponse
    rw [if_neg (by simp [hl1, hl2]),
      if_pos (by rcases hg with h | h | h <;> simp [h])]
  · cases ready <;> decide
  · cases ready <;> decide

/-- Witness for the amended C6 at the concrete greeting input "สวัสดี". -/
theorem claim6_first_match_witness :
    getFallbackResponse true "สวัสดี" = greetingReply
    ∧ getFallbackResponse true "HELLO" = greetingReply
    ∧ getFallbackResponse true "hello" = greetingReply :=
  claim6_first_match true "สวัสดี" (by decide) (by decide) (Or.inl (by decide))

/-- The resolution step depends only on the readiness flag and the
Dialogflow outcome, not on the transport-failure flags. -/
theorem proc_indicator_irrel (env : Env) (i rf af : Bool) (m u : String) :
    processWithDialogflow
      (Env.mk env.dialogflowReady env.dfOutcome i rf af) m u
      = processWithDialogflow env m u := by
  obtain ⟨r, dfo, i0, rf0, af0⟩ := env
  rfl

/-- C7: an indicator failure is swallowed: the indicator step then runs a
plain sleep of the same computed duration and returns normally; the reply
texts of the pipeline do not depend on whether the indicator call failed;
and the event outcome is an error only when the reply send itself throws. -/
theorem claim7_indicator_swallowed (env : Env) (e : Event) (u : String)
    (d : Nat) (b : Bool)
    (h1 : e.type = "message") (h2 : e.message.type = "text") :
    (env.indicatorFails = true →
      Act.sleep (d * 1000) ∈ (showRealLoadingAnimation env u d).2)
    ∧ replyTexts (handleEvent env e).2 =
        replyTexts (handleEvent
          (Env.mk env.dialogflowReady env.dfOutcome b env.replyFails
            env.apologyFails) e).2
    ∧ ((handleEvent env e).1 = some Outcome.error ↔ env.replyFails = true) := by
  refine ⟨?_, ?_, ?_⟩
  · intro hif
    simp [showRealLoadingAnimation, hif]
  · rw [handleEvent_qualifying env e h1 h2,
      handleEvent_qualifying
        (Env.mk env.dialogflowReady env.dfOutcome b env.replyFails env.apologyFails)
        e h1 h2]
    cases hrf : env.replyFails <;>
      simp [hrf, replyTexts_append, replyTexts_showReal, replyTexts_proc,
        replyTexts_cons_sleep, replyTexts_cons_reply, replyTexts_nil,
        proc_indicator_irrel]
  · rw [handleEvent_qualifying env e h1 h2]
    cases hrf : env.replyFails <;> simp [hrf]

/-- Witness for C7 at a concrete event with a failing indicator call. -/
theorem claim7_indicator_swallowed_witness :
    (Act.sleep (3 * 1000) ∈
      (showRealLoadingAnimation (Env.mk true (Except.ok (some "ok")) true false false)
        "u" 3).2)
    ∧ replyTexts (handleEvent (Env.mk true (Except.ok (some "ok")) true false false)
        (Event.mk "message" "tok" (Source.mk "u") (Message.mk "text" "hi"))).2 =
      replyTexts (handleEvent (Env.mk true (Except.ok (some "ok")) false false false)
        (Event.mk "message" "tok" (Source.mk "u") (Message.mk "text" "hi"))).2
    ∧ ((handleEvent (Env.mk true (Except.ok (some "ok")) true false false)
        (Event.mk "message" "tok" (Source.mk "u") (Message.mk "text" "hi"))).1 =
          some Outcome.error
        ↔ (Env.mk true (Except.ok (some "ok")) true false false).replyFails = true) := by
  have h := claim7_indicator_swallowed
    (Env.mk true (Except.ok (some "ok")) true false false)
    (Event.mk "message" "tok" (Source.mk "u") (Message.mk "text" "hi"))
    "u" 3 false rfl rfl
  exact ⟨h.1 rfl, h.2.1, h.2.2⟩

/-- When any fallback condition holds, the resolution step resolves to the
fallback responder applied to its message argument. -/
theorem proc_fst_fallback (env : Env) (m u : String)
    (hfb : env.dialogflowReady = false ∨ env.dfOutcome = Except.error ()
      ∨ env.dfOutcome = Except.ok none
      ∨ ∃ s, env.dfOutcome = Except.ok (some s) ∧ trimStr s = "") :
    (processWithDialogflow env m u).1 = getFallbackResponse env.dialogflowReady m := by
  unfold processWithDialogflow
  cases hready : env.dialogflowReady with
  | false => simp [hready]
  | true =>
    rcases hfb with h | h | h | ⟨s, hs, htrim⟩
    · rw [hready] at h
      simp at h
    · simp [hready, h]
    · simp [hready, h]
    · simp [hready, hs, htrim]

/-- C8 counterexample: with the gateway not ready and inbound text " xyz "
(note the surrounding spaces), the reply is the fallback applied to the
trimmed text "xyz", which differs from the fallback applied to the original
untrimmed message body. -/
theorem claim8_fallback_input_counterexample :
    replyTexts (handleEvent (Env.mk false (Except.ok none) false false false)
      (Event.mk "message" "tok" (Source.mk "u") (Message.mk "text" " xyz "))).2 =
      [getFallbackResponse false "xyz"]
    ∧ getFallbackResponse false "xyz" ≠ getFallbackResponse false " xyz " := by
  refine ⟨by decide, by decide⟩

/-- C8 (amended): whenever a qualifying event resolves via the fallback
responder (gateway not ready, backend failure, absent or whitespace-only
fulfillment text), the text the responder is applied to is the trimmed
message body of the event — whitespace-trimmed once at intake, but not
case-folded or otherwise transformed. -/
theorem claim8_fallback_input (env : Env) (e : Event)
    (h1 : e.type = "message") (h2 : e.message.type = "text")
    (hfb : env.dialogflowReady = false ∨ env.dfOutcome = Except.error ()
      ∨ env.dfOutcome = Except.ok none
      ∨ ∃ s, env.dfOutcome = Except.ok (some s) ∧ trimStr s = "") :
    (replyTexts (handleEvent env e).2).head? =
      some (getFallbackResponse env.dialogflowReady (trimStr e.message.text)) := by
  rw [handleEvent_qualifying env e h1 h2]
  cases hrf : env.replyFails <;>
    simp [hrf, replyTexts_append, replyTexts_showReal, replyTexts_proc,
      replyTexts_cons_sleep, replyTexts_cons_reply, replyTexts_nil,
      proc_fst_fallback env (trimStr e.message.text) e.source.userId hfb]

/-- Witness for the amended C8 at a concrete not-ready environment. -/
theorem claim8_fallback_input_witness :
    (replyTexts (handleEvent (Env.mk false (Except.ok none) false false false)
      (Event.mk "message" "tok" (Source.mk "u") (Message.mk "text" " xyz "))).2).head? =
      some (getFallbackResponse false (trimStr " xyz ")) :=
  claim8_fallback_input (Env.mk false (Except.ok none) false false false)
    (Event.mk "message" "tok" (Source.mk "u") (Message.mk "text" " xyz "))
    rfl rfl (Or.inl rfl)

/-- C9: for a fixed readiness flag the fallback responder is deterministic on
every pair of equal inputs — equal inputs give equal replies, there being no
randomness source in this revision — and on inputs matching no keyword group
the reply is the fixed template interpolating the input text and its computed
duration. -/
theorem claim9_deterministic_template (ready : Bool) (s t : String) :
    (s = t → getFallbackResponse ready s = getFallbackResponse ready t)
    ∧ (noKeywordMatch s = true →
        getFallbackResponse ready s =
          "📨 ได้รับข้อความ \"" ++ s
            ++ "\" แล้วครับ!\n\n🎬 คุณเห็น Loading Animation จริงๆ จาก LINE หรือไม่?\n⏰ Duration: "
            ++ toString (getLoadingDuration s)
            ++ " วินาที\n\nลองส่งข้อความยาวๆ ดู จะโหลดนานขึ้นครับ! ✨") := by
  constructor
  · intro hst
    rw [hst]
  · intro hnk
    unfold noKeywordMatch at hnk
    simp at hnk
    simp [getFallbackResponse, defaultReply, hnk]

/-- Witness for C9 at the keyword-free input "abc". -/
theorem claim9_deterministic_template_witness :
    getFallbackResponse true "abc" = getFallbackResponse true "abc"
    ∧ getFallbackResponse true "abc" =
        "📨 ได้รับข้อความ \"" ++ "abc"
          ++ "\" แล้วครับ!\n\n🎬 คุณเห็น Loading Animation จริงๆ จาก LINE หรือไม่?\n⏰ Duration: "
          ++ toString (getLoadingDuration "abc")
          ++ " วินาที\n\nลองส่งข้อความยาวๆ ดู จะโหลดนานขึ้นครับ! ✨" :=
  ⟨(claim9_deterministic_template true "abc" "abc").1 rfl,
   (claim9_deterministic_template true "abc" "abc").2 (by decide)⟩

/-- C10: on every qualifying event — the indicator call succeeding or not,
the NLU resolving instantly or not — the action immediately preceding the
first reply attempt is a sleep of exactly max(0, 1000·d − 1000) milliseconds,
where d is the computed duration for the trimmed message text, and no reply
attempt occurs before it. -/
theorem claim10_residual_wait (env : Env) (e : Event)
    (h1 : e.type = "message") (h2 : e.message.type = "text") :
    ∃ pre rest txt,
      (handleEvent env e).2 =
        pre ++ Act.sleep (max 0 (getLoadingDuration (trimStr e.message.text) * 1000 - 1000))
          :: Act.reply e.replyToken txt :: rest
      ∧ replyActs pre = [] := by
  refine ⟨(showRealLoadingAnimation env e.source.userId
      (getLoadingDuration (trimStr e.message.text))).2
      ++ (processWithDialogflow env (trimStr e.message.text) e.source.userId).2,
    (if env.replyFails then [Act.reply e.replyToken apologyText] else []),
    (processWithDialogflow env (trimStr e.message.text) e.source.userId).1, ?_, ?_⟩
  · rw [handleEvent_qualifying env e h1 h2]
    cases hrf : env.replyFails <;> simp [hrf]
  · simp [replyActs_append, replyActs_showReal, replyActs_proc]

/-- Witness for C10 at a concrete event and environment. -/
theorem claim10_residual_wait_witness :
    ∃ pre rest txt,
      (handleEvent (Env.mk true (Except.ok (some "ok")) false false false)
        (Event.mk "message" "tok" (Source.mk "u") (Message.mk "text" "hi"))).2 =
        pre ++ Act.sleep (max 0 (getLoadingDuration (trimStr "hi") * 1000 - 1000))
          :: Act.reply "tok" txt :: rest
      ∧ replyActs pre = [] :=
  claim10_residual_wait (Env.mk true (Except.ok (some "ok")) false false false)
    (Event.mk "message" "tok" (Source.mk "u") (Message.mk "text" "hi")) rfl rfl
